import Mathlib

/-!
Verification of the template generation engine of `agentweave`
(`src/agentweave/utils/template_generator.py`) against its specification.

The Python module is shallowly embedded below:
* Python values stored in a configuration mapping are modelled by `PyVal`
  (strings, integers and nested dicts — the shapes the resolver can meet);
* Python exceptions are modelled by `Except PyErr`;
* the regular expression `r"{{(\s*)([\w\.]+)(\s*)}}"` used by
  `TemplateGenerator.placeholder_pattern` is modelled by `matchAt`
  (an anchored matcher; `re.sub` scanning is `pySubGo`);
* file contents are byte lists (`List Nat`), UTF-8 decoding of Python
  `open(..., encoding="utf-8")` is `utf8Decode`;
* directory trees are `FSTree`; `os.walk` is a fuel-indexed work-list walk;
* filesystem effects are recorded as a `List Mutation` together with an
  optional first error, mirroring the order of operations in the source.
-/

namespace AgentWeave

/-- A Python value as it can appear in the configuration mapping handed to
`TemplateGenerator`: a string, an integer, or a nested dict with string keys. -/
inductive PyVal where
  | str (s : String)
  | int (n : Int)
  | dict (entries : List (String × PyVal))

/-- Python exceptions raised by the embedded code paths. -/
inductive PyErr where
  | typeError
  | keyError
  /-- `ValueError(f"Required configuration field '{field}' is missing")`
  from `TemplateGenerator._validate_config`. -/
  | valueError (field : String)
  /-- `FileNotFoundError` from `TemplateGenerator.generate`. -/
  | fileNotFoundTemplate
  /-- `re.error("nothing to repeat")`: compiling an invalid regular expression. -/
  | reError
  /-- An `OSError` from `shutil.copy2` in `create_template_from_project`. -/
  | copyError
  deriving DecidableEq

/-- Python `\s` for the whitespace characters exercised by this module
(the ASCII whitespace range). -/
def isPySpace (c : Char) : Bool :=
  c = ' ' || c = '\t' || c = '\n' || c = '\r' || c = '\x0b' || c = '\x0c'

/-- Python `\w` on `str` patterns: Unicode word characters (letters, digits,
underscore).  Modelled exactly for ASCII, plus the Latin-1 Supplement and
Latin Extended letter ranges U+00C0–U+024F (excluding the two operators
U+00D7 and U+00F7), which covers every character this development uses. -/
def isWordChar (c : Char) : Bool :=
  c.isAlphanum || c = '_' ||
    (0xc0 ≤ c.toNat && c.toNat ≤ 0x24f && c.toNat ≠ 0xd7 && c.toNat ≠ 0xf7)

/-- A character allowed inside the identifier group `[\w\.]+`. -/
def isWordDot (c : Char) : Bool :=
  isWordChar c || c = '.'

/-- Anchored match of `TemplateGenerator.placeholder_pattern`, the regex
`{{(\s*)([\w\.]+)(\s*)}}`, at the head of the character list.  Returns
`(group 0, group 2, remainder)` on success.  Greedy maximal munch is
equivalent to backtracking here because the character classes `\s`,
`[\w\.]` and the literal brace are pairwise disjoint. -/
def matchAt : List Char → Option (List Char × List Char × List Char)
  | '{' :: '{' :: r0 =>
    let g1 := r0.takeWhile isPySpace
    let r1 := r0.dropWhile isPySpace
    let g2 := r1.takeWhile isWordDot
    let r2 := r1.dropWhile isWordDot
    if g2.isEmpty then none
    else
      let g3 := r2.takeWhile isPySpace
      let r3 := r2.dropWhile isPySpace
      match r3 with
      | '}' :: '}' :: r4 =>
        some ('{' :: '{' :: (g1 ++ g2 ++ g3 ++ ['}', '}']), g2, r4)
      | _ => none
  | _ => none

/-- Python `str.strip()` (default whitespace stripping). -/
def pyStrip (l : List Char) : List Char :=
  ((l.dropWhile isPySpace).reverse.dropWhile isPySpace).reverse

/-- Python `str.split(".")`. -/
def splitDot : List Char → List (List Char)
  | [] => [[]]
  | c :: cs =>
    if c == '.' then [] :: splitDot cs
    else
      match splitDot cs with
      | [] => [[c]]
      | h :: t => (c :: h) :: t

/-- Lookup in a Python dict with string keys (`d[k]` when present). -/
def dictFind (d : List (String × PyVal)) (k : String) : Option (String × PyVal) :=
  d.find? (fun kv => kv.1 == k)

/-- Substring test, Python `pat in s` on strings. -/
def isSubstr (pat s : List Char) : Bool :=
  s.tails.any (fun t => pat.isPrefixOf t)

/-- Python `key in value` for the values the resolver can reach: dict key
membership, string substring membership; on an `int`, `in` raises
`TypeError` ("argument of type 'int' is not iterable"). -/
def pyContains (v : PyVal) (key : String) : Except PyErr Bool :=
  match v with
  | .dict d => .ok (dictFind d key).isSome
  | .str s => .ok (isSubstr key.data s.data)
  | .int _ => .error .typeError

/-- Python `value[key]` with a string key: dict lookup; on a string the
index must be an integer (`TypeError`); an `int` is not subscriptable. -/
def pyGetItem (v : PyVal) (key : String) : Except PyErr PyVal :=
  match v with
  | .dict d =>
    match dictFind d key with
    | some kv => .ok kv.2
    | none => .error .keyError
  | .str _ => .error .typeError
  | .int _ => .error .typeError

/-- Python `repr` of a value, with fuel bounding dict nesting (Python's own
recursion limit makes unbounded nesting unrepresentable anyway; no theorem
below exercises the fuel-exhausted branch). -/
def pyReprV : Nat → PyVal → String
  | _, .str s => "\x27" ++ s ++ "\x27"
  | _, .int n => toString n
  | 0, .dict _ => "..."
  | n + 1, .dict d =>
    "\x7b" ++
      String.intercalate ", "
        (d.map (fun kv => "\x27" ++ kv.1 ++ "\x27: " ++ pyReprV n kv.2)) ++
      "\x7d"

/-- Python `str(value)` as used by `_process_placeholder`. -/
def pyStr : PyVal → String
  | .str s => s
  | .int n => toString n
  | .dict d => pyReprV 1000 (.dict d)

/-- The level-by-level walk in `TemplateGenerator._process_placeholder`:
`value = self.config; for part in parts: if part in value: value = value[part]
else: return match.group(0)`.  `.ok none` models taking the early
`return match.group(0)` (key not found); exceptions propagate. -/
def codeWalk (v : PyVal) : List String → Except PyErr (Option PyVal)
  | [] => .ok (some v)
  | p :: ps =>
    match pyContains v p with
    | .error e => .error e
    | .ok true =>
      match pyGetItem v p with
      | .error e => .error e
      | .ok x => codeWalk x ps
    | .ok false => .ok none

/-- `TemplateGenerator._process_placeholder`: given the whole matched token
(group 0) and the identifier (group 2), produce the replacement text. -/
def processPlaceholder (config : List (String × PyVal))
    (whole ident : List Char) : Except PyErr (List Char) :=
  let ph := pyStrip ident
  if ph.any (· == '.') then
    match codeWalk (.dict config) ((splitDot ph).map (fun l => String.mk l)) with
    | .error e => .error e
    | .ok (some v) => .ok (pyStr v).data
    | .ok none => .ok whole
  else
    match dictFind config (String.mk ph) with
    | some kv => .ok (pyStr kv.2).data
    | none => .ok whole

/-- One left-to-right `re.sub` scan with the callable replacement, fuelled by
the input length (each step consumes at least one character, so fuel equal to
the length of the text is always sufficient; see `pySubGo_fuel`). -/
def pySubGo (config : List (String × PyVal)) : Nat → List Char → Except PyErr (List Char)
  | 0, s => .ok s
  | n + 1, s =>
    match s with
    | [] => .ok []
    | c :: cs =>
      match matchAt (c :: cs) with
      | none =>
        match pySubGo config n cs with
        | .error e => .error e
        | .ok r => .ok (c :: r)
      | some (whole, ident, rest) =>
        match processPlaceholder config whole ident with
        | .error e => .error e
        | .ok rep =>
          match pySubGo config n rest with
          | .error e => .error e
          | .ok r => .ok (rep ++ r)

/-- `TemplateGenerator._replace_placeholders`:
`self.placeholder_pattern.sub(self._process_placeholder, content)`. -/
def replacePlaceholders (config : List (String × PyVal)) (content : String) :
    Except PyErr String :=
  match pySubGo config content.data.length content.data with
  | .ok l => .ok (String.mk l)
  | .error e => .error e

/-- Strict UTF-8 decoding of a byte sequence, as performed by Python's
`open(..., encoding="utf-8").read()`: rejects truncated sequences, overlong
encodings, surrogates, and code points above U+10FFFF. -/
def utf8Decode : List Nat → Option (List Char)
  | [] => some []
  | b :: rest =>
    if b < 0x80 then
      (utf8Decode rest).map (fun l => Char.ofNat b :: l)
    else if b < 0xc2 then none
    else if b < 0xe0 then
      match rest with
      | b2 :: rest2 =>
        if 0x80 ≤ b2 && b2 < 0xc0 then
          (utf8Decode rest2).map
            (fun l => Char.ofNat ((b - 0xc0) * 64 + (b2 - 0x80)) :: l)
        else none
      | [] => none
    else if b < 0xf0 then
      match rest with
      | b2 :: b3 :: rest3 =>
        let lo2 := if b == 0xe0 then 0xa0 else 0x80
        let hi2 := if b == 0xed then 0xa0 else 0xc0
        if (lo2 ≤ b2 && b2 < hi2) && (0x80 ≤ b3 && b3 < 0xc0) then
          (utf8Decode rest3).map
            (fun l =>
              Char.ofNat ((b - 0xe0) * 4096 + (b2 - 0x80) * 64 + (b3 - 0x80)) :: l)
        else none
      | _ => none
    else if b < 0xf5 then
      match rest with
      | b2 :: b3 :: b4 :: rest4 =>
        let lo2 := if b == 0xf0 then 0x90 else 0x80
        let hi2 := if b == 0xf4 then 0x90 else 0xc0
        if (lo2 ≤ b2 && b2 < hi2) && (0x80 ≤ b3 && b3 < 0xc0) &&
            (0x80 ≤ b4 && b4 < 0xc0) then
          (utf8Decode rest4).map
            (fun l =>
              Char.ofNat
                ((b - 0xf0) * 262144 + (b2 - 0x80) * 4096 +
                  (b3 - 0x80) * 64 + (b4 - 0x80)) :: l)
        else none
      | _ => none
    else none

/-- UTF-8 encoding of one character (used when the processed text is written
back with `encoding="utf-8"`). -/
def utf8EncodeChar (c : Char) : List Nat :=
  let n := c.toNat
  if n < 0x80 then [n]
  else if n < 0x800 then [0xc0 + n / 64, 0x80 + n % 64]
  else if n < 0x10000 then
    [0xe0 + n / 4096, 0x80 + (n / 64) % 64, 0x80 + n % 64]
  else
    [0xf0 + n / 262144, 0x80 + (n / 4096) % 64, 0x80 + (n / 64) % 64,
      0x80 + n % 64]

/-- UTF-8 encoding of a text. -/
def utf8Encode (l : List Char) : List Nat :=
  (l.map utf8EncodeChar).flatten

/-- `TemplateGenerator._process_file`, on the bytes of one source file:
try to decode as UTF-8 and substitute placeholders in the text; on a
`UnicodeDecodeError` fall back to `shutil.copy2` (the bytes pass through
unchanged and the decode failure is swallowed). -/
def processFile (config : List (String × PyVal)) (b : List Nat) :
    Except PyErr (List Nat) :=
  match utf8Decode b with
  | some chars => do
    let r ← replacePlaceholders config (String.mk chars)
    .ok (utf8Encode r.data)
  | none => .ok b

/-- A directory tree on disk: named files with byte contents, and named
subdirectories, in the order `os.walk` reports them. -/
inductive FSTree where
  | dir (files : List (String × List Nat)) (subdirs : List (String × FSTree))

/-- A filesystem mutation performed by the engine, relative to the output
root: `mkdir -p` of a directory, or a file write (for `generate`, the
processed content; for capture, a verbatim copy). -/
inductive Mutation where
  | mkdir (path : List String)
  | write (path : List String) (content : List Nat)
  deriving DecidableEq

/-- `TemplateGenerator.ignore_files`. -/
def ignoreFiles : List String :=
  [".git", ".DS_Store", "__pycache__", ".pyc", "node_modules", ".next",
    ".venv", ".env"]

/-- `TemplateGenerator._should_ignore_file`: an entry is ignored when any
ignore-set entry occurs as a substring of the path's string form. -/
def shouldIgnoreFile (p : String) : Bool :=
  ignoreFiles.any (fun pat => isSubstr pat.data p.data)

/-- Python `list.remove("schema.yaml")`: drop the first file so named. -/
def removeFirstSchema : List (String × List Nat) → List (String × List Nat)
  | [] => []
  | f :: rest =>
    if f.1 == "schema.yaml" then rest else f :: removeFirstSchema rest

/-- The per-file loop of `TemplateGenerator.generate`: skip ignored files,
resolve placeholders in the filename, process the content, write it.  The
first exception aborts the loop; mutations already performed are kept. -/
def genProcFiles (config : List (String × PyVal)) (rel : List String) :
    List (String × List Nat) → List Mutation × Option PyErr
  | [] => ([], none)
  | (n, b) :: rest =>
    if shouldIgnoreFile n then genProcFiles config rel rest
    else
      match replacePlaceholders config n with
      | .error e => ([], some e)
      | .ok n2 =>
        match processFile config b with
        | .error e => ([], some e)
        | .ok b2 =>
          let (ms, e) := genProcFiles config rel rest
          (.write (rel ++ [n2]) b2 :: ms, e)

/-- The `os.walk` loop of `TemplateGenerator.generate`, as a fuelled
work-list traversal (top-down, depth-first, exactly the order of `os.walk`;
fuel at least the number of directories in the tree is always sufficient).
At the template root (`rel == []`) a file named `schema.yaml` is removed from
the file list; ignored subdirectories are pruned before descending. -/
def genGo (config : List (String × PyVal)) :
    Nat → List (List String × FSTree) → List Mutation × Option PyErr
  | _, [] => ([], none)
  | 0, _ :: _ => ([], none)
  | n + 1, (rel, .dir files subdirs) :: stack =>
    let files1 :=
      if rel.isEmpty && files.any (fun f => f.1 == "schema.yaml") then
        removeFirstSchema files
      else files
    let dirs2 := subdirs.filter (fun p => !shouldIgnoreFile p.1)
    let newStack := dirs2.map (fun p => (rel ++ [p.1], p.2)) ++ stack
    let (fm, fe) := genProcFiles config rel files1
    match fe with
    | some e => (.mkdir rel :: fm, some e)
    | none =>
      let (rm, re2) := genGo config n newStack
      (.mkdir rel :: fm ++ rm, re2)

/-- The first schema-required field missing from the configuration, the one
named by the `ValueError` that `TemplateGenerator._validate_config` raises.
`required` is the list under the schema's `required` key (empty when the
template has no schema file, the schema is empty, or it has no `required`
key — all of which make validation a no-op). -/
def firstMissing (required : List String) (config : List (String × PyVal)) :
    Option String :=
  required.find? (fun f => !(dictFind config f).isSome)

/-- `generate_from_template`: construct the `TemplateGenerator` (which
validates the configuration against the schema) and run `generate` (which
checks that the template directory exists, creates the output directory and
walks the template tree).  Returns the mutations performed, in order, and
the first uncaught exception if any. -/
def generateFromTemplate (fuel : Nat) (templateExists : Bool)
    (required : List String) (config : List (String × PyVal)) (tree : FSTree) :
    List Mutation × Option PyErr :=
  match firstMissing required config with
  | some f => ([], some (.valueError f))
  | none =>
    if templateExists then
      let (m, e) := genGo config fuel [([], tree)]
      (.mkdir [] :: m, e)
    else ([], some .fileNotFoundTemplate)

/-- Anchored match of a regular expression consisting of literal characters
and the metacharacter `.` (any character) against a string, as `re.match`
performs for the compiled patterns of `create_template_from_project`. -/
def reMatchChars : List Char → List Char → Bool
  | [], _ => true
  | _ :: _, [] => false
  | p :: ps, c :: cs => (p == '.' || p == c) && reMatchChars ps cs

/-- Python `re.match(pattern, s)` restricted to the pattern forms appearing
in `create_template_from_project`: a pattern starting with `*` fails to
compile (`re.error`, "nothing to repeat at position 0"); otherwise `.`
matches any character, every other character of these patterns is a
literal, and the match is anchored at the start of `s`. -/
def pyReMatch (pat s : String) : Except PyErr Bool :=
  if pat.data.head? == some '*' then .error .reError
  else .ok (reMatchChars pat.data s.data)

/-- `any(re.match(pattern, s) for pattern in pats)`: short-circuiting, with
the `re.error` of an invalid pattern propagating when reached. -/
def anyMatch (pats : List String) (s : String) : Except PyErr Bool :=
  match pats with
  | [] => .ok false
  | p :: ps => do
    let b ← pyReMatch p s
    if b then .ok true else anyMatch ps s

/-- The default `exclude_paths` of `create_template_from_project`. -/
def defaultExcludePaths : List String :=
  [".git", ".venv", "venv", "__pycache__", "node_modules", ".next",
    ".DS_Store", "*.pyc", "*.pyo", "*.pyd", ".env", "dist", "build"]

/-- Python `str(rel_path)` for the relative path of the walked directory:
`.` at the project root, otherwise the components joined with `/`. -/
def relStr (rel : List String) : String :=
  if rel.isEmpty then "." else String.intercalate "/" rel

/-- The per-file loop of `create_template_from_project`: skip files matching
an exclusion pattern, otherwise `shutil.copy2`.  `failSet` lists the files
whose copy raises an `OSError`; there is no `try` around the copy, so the
first exception aborts the loop. -/
def ctProcFiles (excl : List String) (rel : List String)
    (failSet : List (List String)) :
    List (String × List Nat) → List Mutation × Option PyErr
  | [] => ([], none)
  | (n, b) :: rest =>
    match anyMatch excl n with
    | .error e => ([], some e)
    | .ok true => ctProcFiles excl rel failSet rest
    | .ok false =>
      if failSet.contains (rel ++ [n]) then ([], some .copyError)
      else
        let (ms, e) := ctProcFiles excl rel failSet rest
        (.write (rel ++ [n]) b :: ms, e)

/-- The `dirs[:] = [d for d in dirs if not any(re.match(pattern, d) ...)]`
pruning, evaluated left to right with exceptions propagating. -/
def ctFilterDirs (excl : List String) :
    List (String × FSTree) → Except PyErr (List (String × FSTree))
  | [] => .ok []
  | (n, t) :: rest => do
    let b ← anyMatch excl n
    let r ← ctFilterDirs excl rest
    .ok (if b then r else (n, t) :: r)

/-- The `os.walk` loop of `create_template_from_project`, as a fuelled
work-list traversal.  Per directory: prune subdirectories, test the
relative path string against the exclusion patterns (`continue` skips the
mkdir and the files but the pruned walk still descends), create the target
directory, copy the files. -/
def ctGo (excl : List String) (failSet : List (List String)) :
    Nat → List (List String × FSTree) → List Mutation × Option PyErr
  | _, [] => ([], none)
  | 0, _ :: _ => ([], none)
  | n + 1, (rel, .dir files subdirs) :: stack =>
    match ctFilterDirs excl subdirs with
    | .error e => ([], some e)
    | .ok dirs2 =>
      let newStack := dirs2.map (fun p => (rel ++ [p.1], p.2)) ++ stack
      match anyMatch excl (relStr rel) with
      | .error e => ([], some e)
      | .ok true => ctGo excl failSet n newStack
      | .ok false =>
        let (fm, fe) := ctProcFiles excl rel failSet files
        match fe with
        | some e => (.mkdir rel :: fm, some e)
        | none =>
          let (rm, re2) := ctGo excl failSet n newStack
          (.mkdir rel :: fm ++ rm, re2)

/-- The text of the `schema.yaml` that `create_template_from_project`
synthesizes (`yaml.dump(schema, f, default_flow_style=False)`, which sorts
the top-level keys). -/
def schemaFileText : String :=
  "description: Template configuration schema\n" ++
  "properties:\n" ++
  "  project_description:\n" ++
  "    description: Description of the project\n" ++
  "    type: string\n" ++
  "  project_name:\n" ++
  "    description: Name of the project\n" ++
  "    type: string\n" ++
  "required:\n" ++
  "- project_name\n" ++
  "- project_description\n"

/-- The bytes of the synthesized `schema.yaml`. -/
def schemaFileBytes : List Nat :=
  utf8Encode schemaFileText.data

/-- `create_template_from_project`: create the output directory, default the
exclusion patterns when the caller supplies none, write the synthesized
`schema.yaml`, then walk the source project (`project = none` models a
nonexistent source directory, over which `os.walk` silently yields
nothing). -/
def createTemplateFromProject (fuel : Nat) (project : Option FSTree)
    (excludeArg : Option (List String)) (failSet : List (List String)) :
    List Mutation × Option PyErr :=
  let excl := excludeArg.getD defaultExcludePaths
  let (wm, we) :=
    match project with
    | none => ([], none)
    | some t => ctGo excl failSet fuel [([], t)]
  (.mkdir [] :: .write ["schema.yaml"] schemaFileBytes :: wm, we)

/-- Depth-fuelled check that a value is a nested mapping all the way down:
every value reachable from it is itself a dict.  Fuel bounds the nesting
depth; any fuel at least the actual depth gives `true` on such values. -/
def allDictsF : Nat → PyVal → Bool
  | 0, _ => false
  | _ + 1, .str _ => false
  | _ + 1, .int _ => false
  | n + 1, .dict d => d.all (fun kv => allDictsF n kv.2)

/-- Modelled from the spec: the dotted walk as §4.1 words it — "walk the
mapping level by level; if any level is missing or not a mapping, abort the
walk for that token".  Total: `none` is the abort. -/
def specWalk (v : PyVal) : List String → Option PyVal
  | [] => some v
  | p :: ps =>
    match v with
    | .dict d =>
      match dictFind d p with
      | some kv => specWalk kv.2 ps
      | none => none
    | .str _ => none
    | .int _ => none

/-- Modelled from the spec: processing of one matched token per §4.1 —
direct lookup for a dotless identifier, `specWalk` for a dotted one,
substituting the original matched text verbatim on failure.  Never raises. -/
def specProcessPlaceholder (config : List (String × PyVal))
    (whole ident : List Char) : List Char :=
  let ph := pyStrip ident
  if ph.any (· == '.') then
    match specWalk (.dict config) ((splitDot ph).map (fun l => String.mk l)) with
    | some v => (pyStr v).data
    | none => whole
  else
    match dictFind config (String.mk ph) with
    | some kv => (pyStr kv.2).data
    | none => whole

/-- Modelled from the spec: the total scan-and-substitute pass of §4.1. -/
def specSubGo (config : List (String × PyVal)) : Nat → List Char → List Char
  | 0, s => s
  | n + 1, s =>
    match s with
    | [] => []
    | c :: cs =>
      match matchAt (c :: cs) with
      | none => c :: specSubGo config n cs
      | some (whole, ident, rest) =>
        specProcessPlaceholder config whole ident ++ specSubGo config n rest

/-- Modelled from the spec: `resolve(text, config)` of §4.1, the total
never-raising resolution the spec describes. -/
def specResolve (config : List (String × PyVal)) (content : String) : String :=
  String.mk (specSubGo config content.data.length content.data)

/-- No suffix of the text carries a placeholder match at its head, i.e. the
text contains no substring matching `placeholder_pattern`. -/
def noToken : List Char → Bool
  | [] => true
  | c :: cs => (matchAt (c :: cs)).isNone && noToken cs

/-- The identifier shapes the pattern accepts between the double braces:
optional whitespace, then a nonempty run of word characters and dots, then
optional whitespace. -/
def isTokenShape (inner : List Char) : Bool :=
  let r1 := inner.dropWhile isPySpace
  !(r1.takeWhile isWordDot).isEmpty && (r1.dropWhile isWordDot).all isPySpace

/-! ## Helper lemmas -/

theorem pySubGo_of_noToken (config : List (String × PyVal)) :
    ∀ (n : Nat) (s : List Char), noToken s = true → pySubGo config n s = .ok s := by
  intro n
  induction n with
  | zero => intro s _; rfl
  | succ n ih =>
    intro s h
    cases s with
    | nil => rfl
    | cons c cs =>
      rw [noToken] at h
      simp only [Bool.and_eq_true] at h
      obtain ⟨h1, h2⟩ := h
      have hm : matchAt (c :: cs) = none := Option.isNone_iff_eq_none.mp h1
      simp only [pySubGo, hm]
      rw [ih cs h2]

theorem replacePlaceholders_of_noToken (config : List (String × PyVal))
    (s : String) (h : noToken s.data = true) :
    replacePlaceholders config s = .ok s := by
  unfold replacePlaceholders
  rw [pySubGo_of_noToken config s.data.length s.data h]

theorem codeWalk_eq_specWalk : ∀ (ps : List String) (n : Nat) (v : PyVal),
    allDictsF n v = true → codeWalk v ps = .ok (specWalk v ps) := by
  intro ps
  induction ps with
  | nil => intro n v _; rfl
  | cons p ps ih =>
    intro n v hv
    cases n with
    | zero => simp [allDictsF] at hv
    | succ n =>
      cases v with
      | str s => simp [allDictsF] at hv
      | int m => simp [allDictsF] at hv
      | dict d =>
        cases hf : dictFind d p with
        | none => simp [codeWalk, pyContains, hf, specWalk]
        | some kv =>
          have hmem : kv ∈ d := List.mem_of_find?_eq_some hf
          have hkv : allDictsF n kv.2 = true := by
            have hall : ∀ (a : String) (b : PyVal), (a, b) ∈ d →
                allDictsF n b = true := by simpa [allDictsF] using hv
            exact hall kv.1 kv.2 hmem
          simp [codeWalk, pyContains, pyGetItem, hf, specWalk, ih n kv.2 hkv]

theorem processPlaceholder_eq_spec (config : List (String × PyVal)) (m : Nat)
    (hc : allDictsF m (.dict config) = true) (whole ident : List Char) :
    processPlaceholder config whole ident =
      .ok (specProcessPlaceholder config whole ident) := by
  unfold processPlaceholder specProcessPlaceholder
  cases hdot : (pyStrip ident).any (· == '.') with
  | true =>
    simp only [hdot, if_true]
    rw [codeWalk_eq_specWalk _ m _ hc]
    cases specWalk (.dict config)
        (((splitDot (pyStrip ident))).map (fun l => String.mk l)) with
    | none => rfl
    | some v => rfl
  | false =>
    simp only [hdot, if_false]
    cases dictFind config (String.mk (pyStrip ident)) with
    | none => rfl
    | some kv => rfl

theorem pySubGo_eq_spec (config : List (String × PyVal)) (m : Nat)
    (hc : allDictsF m (.dict config) = true) :
    ∀ (n : Nat) (s : List Char),
      pySubGo config n s = .ok (specSubGo config n s) := by
  intro n
  induction n with
  | zero => intro s; rfl
  | succ n ih =>
    intro s
    cases s with
    | nil => rfl
    | cons c cs =>
      cases hm : matchAt (c :: cs) with
      | none =>
        simp only [pySubGo, specSubGo, hm]
        rw [ih cs]
      | some t =>
        obtain ⟨whole, ident, rest⟩ := t
        simp only [pySubGo, specSubGo, hm]
        rw [processPlaceholder_eq_spec config m hc whole ident, ih rest]

/-! ## C1 — the resolver against the never-raising spec contract -/

/-- C1 as stated is false: resolution can raise.  With config
`\x7b"a": 5\x7d` and text "\x7b\x7ba.b\x7d\x7d", the dotted walk reaches the
intermediate value `5`, which is not a mapping, and the membership test
`"b" in 5` raises `TypeError` instead of substituting the original token. -/
theorem c1_dotted_walk_raises_on_nonmapping :
    replacePlaceholders [("a", .int 5)] "\x7b\x7ba.b\x7d\x7d" =
      .error .typeError := rfl

/-- C1 amended: resolution never raises and leaves every unresolvable token
in place provided every value of the configuration is itself (transitively)
a nested mapping; on such configs the code computes exactly the total
resolution the spec describes (`specResolve`, which substitutes the
original matched text for any token whose path cannot be fully resolved).
When a dotted path meets a non-mapping intermediate value, resolution may
instead raise `TypeError`, as `c1_dotted_walk_raises_on_nonmapping`
shows. -/
theorem c1_resolver_matches_spec_on_nested_mappings
    (config : List (String × PyVal)) (m : Nat)
    (hc : allDictsF m (.dict config) = true) (content : String) :
    replacePlaceholders config content = .ok (specResolve config content) := by
  unfold replacePlaceholders specResolve
  rw [pySubGo_eq_spec config m hc]

/-- Witness for C1 (amended) on the nested-mapping config
`\x7b"a": \x7b\x7d\x7d` and the unresolvable token "\x7b\x7ba.b\x7d\x7d". -/
theorem c1_resolver_matches_spec_witness :
    allDictsF 2 (.dict [("a", .dict [])]) = true ∧
      replacePlaceholders [("a", .dict [])] "\x7b\x7ba.b\x7d\x7d" =
        .ok (specResolve [("a", .dict [])] "\x7b\x7ba.b\x7d\x7d") :=
  ⟨by decide,
    c1_resolver_matches_spec_on_nested_mappings [("a", .dict [])] 2
      (by decide) "\x7b\x7ba.b\x7d\x7d"⟩

/-! ## C2 — error handling of per-file copy failures during capture -/

/-- C2 as stated is false: with excludes `[]` and a copy failure on `f1`,
the capture run does not succeed and the untouched sibling `f2` is not in
the output, contrary to "only that file is skipped ... the operation still
terminates successfully and every other non-excluded file is present". -/
theorem c2_claim_fails_copy_error_not_skipped :
    (createTemplateFromProject 1 (some (.dir [("f1", [1]), ("f2", [2])] []))
        (some []) [["f1"]]).2 = some PyErr.copyError ∧
      Mutation.write ["f2"] [2] ∉
        (createTemplateFromProject 1 (some (.dir [("f1", [1]), ("f2", [2])] []))
          (some []) [["f1"]]).1 := by
  exact ⟨rfl, by decide⟩

/-- C2 amended: `shutil.copy2` is not wrapped in any `try`, so an error
reading or writing an individual file propagates and aborts the whole
capture at that file; files not yet visited are never copied.  Whatever
files follow the failing one, the mutations performed are exactly the
output mkdir, the synthesized `schema.yaml`, and the root target mkdir. -/
theorem c2_copy_error_aborts_capture (c : List Nat)
    (rest : List (String × List Nat)) (n : Nat) :
    createTemplateFromProject (n + 1) (some (.dir (("f1", c) :: rest) []))
        (some []) [["f1"]] =
      ([.mkdir [], .write ["schema.yaml"] schemaFileBytes, .mkdir []],
        some .copyError) := rfl

/-! ## C3 — capture with a nonexistent source directory -/

/-- C3 as stated is false: with a nonexistent source project directory the
capture does not fail (no `ProjectNotFound` is raised — the code performs no
existence check and `os.walk` silently yields nothing), and filesystem
mutations do occur: the output directory is created and `schema.yaml` is
written before the walk. -/
theorem c3_claim_fails_no_existence_check :
    createTemplateFromProject 0 none none [] =
      ([.mkdir [], .write ["schema.yaml"] schemaFileBytes], none) := rfl

/-- C3 amended: `create_template_from_project` never checks that the source
project directory exists; when it does not, the operation still creates the
output template directory, writes the synthesized `schema.yaml`, copies
nothing, and completes without error. -/
theorem c3_missing_project_still_creates_output (fuel : Nat)
    (excludeArg : Option (List String)) (failSet : List (List String)) :
    createTemplateFromProject fuel none excludeArg failSet =
      ([.mkdir [], .write ["schema.yaml"] schemaFileBytes], none) := rfl

/-! ## C4 — default exclusion patterns during capture -/

/-- C4: the code contradicts the claim (and its own intent) — when the
caller supplies no `exclude_patterns`, the defaults include glob-style
entries such as `*.pyc`, which `re.match` cannot compile; the very first
pattern scan (against the root relative path ".") raises
`re.error("nothing to repeat")`, so a default-excludes capture of any
existing project, even an empty one, always fails after creating the
output directory and `schema.yaml`. -/
theorem c4_default_excludes_raise_re_error :
    createTemplateFromProject 1 (some (.dir [] [])) none [] =
      ([.mkdir [], .write ["schema.yaml"] schemaFileBytes],
        some .reError) := rfl

/-! ## C5 — required-field validation gates generation -/

/-- C5: if the schema's `required` list names a key absent from the
configuration's top-level keys, `generate_from_template` raises the
`ValueError` naming a missing required field, and performs no filesystem
mutation: no output directory and no file is created. -/
theorem c5_missing_required_field_blocks_generation (fuel : Nat)
    (templateExists : Bool) (required : List String)
    (config : List (String × PyVal)) (tree : FSTree) (f : String)
    (h1 : f ∈ required) (h2 : dictFind config f = none) :
    ∃ g, generateFromTemplate fuel templateExists required config tree =
        ([], some (.valueError g)) ∧
      g ∈ required ∧ dictFind config g = none := by
  have hp : (!(dictFind config f).isSome) = true := by rw [h2]; rfl
  have hs : (firstMissing required config).isSome := by
    unfold firstMissing
    exact List.find?_isSome.mpr ⟨f, h1, hp⟩
  cases hfind : firstMissing required config with
  | none => rw [hfind] at hs; simp at hs
  | some g =>
    have hfind2 : required.find? (fun x => !(dictFind config x).isSome) = some g := hfind
    refine ⟨g, ?_, List.mem_of_find?_eq_some hfind2, ?_⟩
    · unfold generateFromTemplate
      rw [hfind]
    · have hg := List.find?_some hfind2
      simpa using hg

/-- Witness for C5 at the spec's own example: schema
`required: [project_name]` and config `{}`. -/
theorem c5_missing_required_field_witness :
    "project_name" ∈ ["project_name"] ∧
      dictFind [] "project_name" = none ∧
      ∃ g, generateFromTemplate 0 true ["project_name"] [] (.dir [] []) =
          ([], some (.valueError g)) ∧
        g ∈ ["project_name"] ∧ dictFind [] g = none :=
  ⟨by decide, rfl,
    c5_missing_required_field_blocks_generation 0 true ["project_name"] []
      (.dir [] []) "project_name" (by decide) rfl⟩

/-! ## C6 — binary files are copied byte-for-byte -/

/-- C6: a template file whose bytes do not decode as UTF-8 is copied to the
destination byte-identically — no placeholder substitution touches it — and
the decode failure is swallowed, never surfaced as an error. -/
theorem c6_binary_file_copied_verbatim (config : List (String × PyVal))
    (b : List Nat) (h : utf8Decode b = none) :
    processFile config b = .ok b := by
  unfold processFile
  rw [h]

/-- Witness for C6 on the single undecodable byte `0xFF`. -/
theorem c6_binary_file_copied_verbatim_witness :
    utf8Decode [255] = none ∧ processFile [] [255] = .ok [255] :=
  ⟨rfl, c6_binary_file_copied_verbatim [] [255] rfl⟩

/-! ## C7 — substitution is non-reentrant -/

/-- C7: a substituted value is inserted verbatim and never re-scanned: for
any config binding "x" to a string value (whatever that value contains, and
whatever further keys the config holds, e.g. a key "y"), resolving the text
"\x7b\x7bx\x7d\x7d" yields exactly that string value. -/
theorem c7_substitution_non_reentrant (s : String)
    (rest : List (String × PyVal)) :
    replacePlaceholders (("x", .str s) :: rest) "\x7b\x7bx\x7d\x7d" =
      .ok s := by
  cases s with
  | mk l =>
    calc replacePlaceholders (("x", .str (String.mk l)) :: rest) "\x7b\x7bx\x7d\x7d"
        = .ok (String.mk (l ++ [])) := rfl
      _ = .ok (String.mk l) := by rw [List.append_nil]

/-! ## C8 — resolution is the identity on placeholder-free text -/

/-- C8: for every text none of whose suffixes matches the placeholder
pattern at its head (i.e. no substring matches `placeholder_pattern`) and
for every configuration mapping, resolution returns the text unchanged. -/
theorem c8_identity_on_placeholder_free_text (config : List (String × PyVal))
    (s : String) (h : noToken s.data = true) :
    replacePlaceholders config s = .ok s :=
  replacePlaceholders_of_noToken config s h

/-- Witness for C8 on a brace-bearing but token-free text. -/
theorem c8_identity_witness :
    noToken "no \x7btokens\x7d here".data = true ∧
      replacePlaceholders [("tokens", .str "X")] "no \x7btokens\x7d here" =
        .ok "no \x7btokens\x7d here" :=
  ⟨by decide,
    c8_identity_on_placeholder_free_text [("tokens", .str "X")]
      "no \x7btokens\x7d here" (by decide)⟩

/-! ## C9 — which double-brace occurrences are recognized as tokens -/

theorem takeWhile_append_not (p : Char → Bool) (c : Char) (hc : p c = false)
    (l m : List Char) : (l ++ c :: m).takeWhile p = l.takeWhile p := by
  induction l with
  | nil => simp [List.takeWhile_cons, hc]
  | cons a l ih =>
    simp only [List.cons_append, List.takeWhile_cons]
    cases ha : p a with
    | true => simp [ih]
    | false => rfl

theorem dropWhile_append_not (p : Char → Bool) (c : Char) (hc : p c = false)
    (l m : List Char) : (l ++ c :: m).dropWhile p = l.dropWhile p ++ c :: m := by
  induction l with
  | nil => simp [List.dropWhile_cons, hc]
  | cons a l ih =>
    simp only [List.cons_append, List.dropWhile_cons]
    cases ha : p a with
    | true => simp [ih]
    | false => simp

theorem dropWhile_head_false (p : Char → Bool) :
    ∀ (l : List Char) (d : Char) (t : List Char),
      l.dropWhile p = d :: t → p d = false := by
  intro l
  induction l with
  | nil => intro d t hdt; simp [List.dropWhile] at hdt
  | cons a l ih =>
    intro d t hdt
    rw [List.dropWhile_cons] at hdt
    cases ha : p a with
    | true =>
      rw [ha] at hdt
      simp at hdt
      exact ih d t hdt
    | false =>
      rw [ha] at hdt
      simp at hdt
      obtain ⟨rfl, -⟩ := hdt
      exact ha

/-- C9 as stated is false: Python's `\w` on `str` patterns matches Unicode
word characters, not only ASCII ones, so a token whose identifier is the
non-ASCII letter `é` is recognized and substituted rather than left
unchanged. -/
theorem c9_claim_fails_unicode_word_char :
    replacePlaceholders [("é", .str "v")] "\x7b\x7bé\x7d\x7d" = .ok "v" ∧
      ("\x7b\x7bé\x7d\x7d" : String) ≠ "v" :=
  ⟨rfl, by decide⟩

/-- C9 amended: a double-brace occurrence `\x7b\x7b inner \x7d\x7d` whose
inner text contains no closing brace is recognized as a placeholder token
exactly when the inner text is optional whitespace, then a nonempty run of
word characters (in the Unicode sense of Python's `\w` — letters, digits,
underscore, not only ASCII) and dots, then optional whitespace. -/
theorem c9_token_recognition_iff_shape (inner rest : List Char)
    (h : ∀ c ∈ inner, c ≠ '}') :
    (matchAt ('{' :: '{' :: (inner ++ '}' :: '}' :: rest))).isSome =
      isTokenShape inner := by
  have e1 : (inner ++ '}' :: '}' :: rest).takeWhile isPySpace =
      inner.takeWhile isPySpace := takeWhile_append_not _ _ rfl _ _
  have e2 : (inner ++ '}' :: '}' :: rest).dropWhile isPySpace =
      inner.dropWhile isPySpace ++ '}' :: '}' :: rest :=
    dropWhile_append_not _ _ rfl _ _
  have e3 : ((inner.dropWhile isPySpace) ++ '}' :: '}' :: rest).takeWhile
      isWordDot = (inner.dropWhile isPySpace).takeWhile isWordDot :=
    takeWhile_append_not _ _ rfl _ _
  have e4 : ((inner.dropWhile isPySpace) ++ '}' :: '}' :: rest).dropWhile
      isWordDot =
      (inner.dropWhile isPySpace).dropWhile isWordDot ++ '}' :: '}' :: rest :=
    dropWhile_append_not _ _ rfl _ _
  have e5 : (((inner.dropWhile isPySpace).dropWhile isWordDot) ++
      '}' :: '}' :: rest).dropWhile isPySpace =
      ((inner.dropWhile isPySpace).dropWhile isWordDot).dropWhile isPySpace ++
        '}' :: '}' :: rest := dropWhile_append_not _ _ rfl _ _
  simp only [matchAt, e1, e2, e3, e4, e5, isTokenShape]
  cases hge : ((inner.dropWhile isPySpace).takeWhile isWordDot).isEmpty with
  | true => simp
  | false =>
    simp only [Bool.false_eq_true, if_false, Bool.not_false, Bool.true_and]
    cases hi3 : ((inner.dropWhile isPySpace).dropWhile isWordDot).dropWhile
        isPySpace with
    | nil =>
      have hall : ∀ x ∈ (inner.dropWhile isPySpace).dropWhile isWordDot,
          isPySpace x = true := List.dropWhile_eq_nil_iff.mp hi3
      simp [List.all_eq_true]
      exact hall
    | cons d t =>
      have hd1 : isPySpace d = false := dropWhile_head_false _ _ _ _ hi3
      have hd2 : d ∈ (inner.dropWhile isPySpace).dropWhile isWordDot := by
        have : d ∈ ((inner.dropWhile isPySpace).dropWhile isWordDot).dropWhile
            isPySpace := by rw [hi3]; exact List.mem_cons_self _ _
        exact (List.dropWhile_sublist _).mem this
      have hd3 : d ∈ inner := by
        have hstep : d ∈ inner.dropWhile isPySpace :=
          ((List.dropWhile_sublist _)).mem hd2
        exact ((List.dropWhile_sublist _)).mem hstep
      have hd4 : d ≠ '}' := h d hd3
      have hnall : ((inner.dropWhile isPySpace).dropWhile isWordDot).all
          isPySpace = false := by
        cases hcontra : ((inner.dropWhile isPySpace).dropWhile isWordDot).all
            isPySpace with
        | false => rfl
        | true =>
          have hx := List.all_eq_true.mp hcontra d hd2
          rw [hd1] at hx
          simp at hx
      rw [hnall]
      split
      · rename_i r4 heq
        obtain ⟨hd, -⟩ := List.cons.inj heq
        exact absurd hd hd4
      · rfl

/-- Witness for C9 (amended) on the inner text " a.b " (a well-shaped
identifier wrapped in whitespace). -/
theorem c9_token_recognition_witness :
    (∀ c ∈ (" a.b ".data), c ≠ '}') ∧
      (matchAt ('{' :: '{' :: (" a.b ".data ++ '}' :: '}' :: []))).isSome =
        isTokenShape " a.b ".data :=
  ⟨by decide, c9_token_recognition_iff_shape " a.b ".data [] (by decide)⟩

/-! ## C10 — `schema.yaml` is excluded only at the template root -/

/-- C10: `generate` removes `schema.yaml` from the walked file list only
when the walked directory is the template root; a `schema.yaml` inside a
subdirectory is processed like any other file (its content goes through
`_process_file`, so placeholders in text are resolved) and is written at
the corresponding place of the output tree.  Concretely: a template with a
root `schema.yaml` and a subdirectory `sub/schema.yaml` generates exactly
the output mkdirs and the single file `sub/schema.yaml`, holding whatever
`_process_file` produced for it. -/
theorem genGo_nil (config : List (String × PyVal)) (f : Nat) :
    genGo config f [] = ([], none) := by
  cases f with
  | zero => rfl
  | succ m => rfl

theorem c10_subdir_schema_processed (n : Nat) (config : List (String × PyVal))
    (b0 b1 pb : List Nat) (h : processFile config b1 = .ok pb) :
    generateFromTemplate (n + 2) true [] config
        (FSTree.dir [("schema.yaml", b0)]
          [("sub", FSTree.dir [("schema.yaml", b1)] [])]) =
      ([.mkdir [], .mkdir [], .mkdir ["sub"],
        .write ["sub", "schema.yaml"] pb], none) := by
  have hname : replacePlaceholders config "schema.yaml" = .ok "schema.yaml" :=
    replacePlaceholders_of_noToken config "schema.yaml" (by decide)
  have hpf2 : genProcFiles config ["sub"] [("schema.yaml", b1)] =
      ([Mutation.write ["sub", "schema.yaml"] pb], none) := by
    have e0 : genProcFiles config ["sub"] [("schema.yaml", b1)] =
        (match replacePlaceholders config "schema.yaml" with
          | .error e => ([], some e)
          | .ok n2 =>
            match processFile config b1 with
            | .error e => ([], some e)
            | .ok b2 => ([Mutation.write (["sub"] ++ [n2]) b2], none)) := rfl
    rw [e0, hname, h]
    rfl
  have hstep2 : genGo config (n + 1)
      [(["sub"], FSTree.dir [("schema.yaml", b1)] [])] =
      ([Mutation.mkdir ["sub"], Mutation.write ["sub", "schema.yaml"] pb],
        none) := by
    have e1 : genGo config (n + 1)
        [(["sub"], FSTree.dir [("schema.yaml", b1)] [])] =
        (match (genProcFiles config ["sub"] [("schema.yaml", b1)]).2 with
          | some e =>
            (Mutation.mkdir ["sub"] ::
              (genProcFiles config ["sub"] [("schema.yaml", b1)]).1, some e)
          | none =>
            (Mutation.mkdir ["sub"] ::
              (genProcFiles config ["sub"] [("schema.yaml", b1)]).1 ++
                (genGo config n []).1,
              (genGo config n []).2)) := rfl
    rw [e1, hpf2, genGo_nil config n]
    rfl
  have hstep1 : genGo config (n + 1 + 1)
      [([], FSTree.dir [("schema.yaml", b0)]
        [("sub", FSTree.dir [("schema.yaml", b1)] [])])] =
      (Mutation.mkdir [] ::
        (genGo config (n + 1)
          [(["sub"], FSTree.dir [("schema.yaml", b1)] [])]).1,
        (genGo config (n + 1)
          [(["sub"], FSTree.dir [("schema.yaml", b1)] [])]).2) :=
    rfl
  have hstep0 : generateFromTemplate (n + 2) true [] config
      (FSTree.dir [("schema.yaml", b0)]
        [("sub", FSTree.dir [("schema.yaml", b1)] [])]) =
      (Mutation.mkdir [] ::
        (genGo config (n + 1 + 1)
          [([], FSTree.dir [("schema.yaml", b0)]
            [("sub", FSTree.dir [("schema.yaml", b1)] [])])]).1,
        (genGo config (n + 1 + 1)
          [([], FSTree.dir [("schema.yaml", b0)]
            [("sub", FSTree.dir [("schema.yaml", b1)] [])])]).2) := rfl
  rw [hstep0, hstep1, hstep2]

/-- Witness for C10 with the subdirectory `schema.yaml` holding the text
"hi" and an empty configuration. -/
theorem c10_subdir_schema_witness :
    processFile [] [104, 105] = .ok [104, 105] ∧
      generateFromTemplate 2 true [] []
          (FSTree.dir [("schema.yaml", [97])]
            [("sub", FSTree.dir [("schema.yaml", [104, 105])] [])]) =
        ([.mkdir [], .mkdir [], .mkdir ["sub"],
          .write ["sub", "schema.yaml"] [104, 105]], none) :=
  ⟨rfl, c10_subdir_schema_processed 0 [] [97] [104, 105] [104, 105] rfl⟩

end AgentWeave
